import Mathlib

set_option maxRecDepth 100000

/-!
Verification of `scripts/generate_data.py` (SparkCity Smart City IoT data
generator).

Shallow embedding conventions:

* Timestamps are natural numbers counting whole minutes since a reference
  instant taken to be a Monday at midnight, so that `hour t = t / 60 % 24`
  matches `datetime.hour` and `weekday t = t / 1440 % 7` matches
  `datetime.weekday()` (Monday = 0, ..., Sunday = 6).  `start_time` is
  arbitrary (the script uses `datetime.now() - timedelta(days=7)`), so all
  results are proved for an arbitrary start minute.
* Numeric values are rationals (`ℚ`).  Python's float arithmetic is modelled
  exactly over `ℚ`.
* Randomness is modelled by oracles.  A draw `np.random.normal(m, s)` is
  embedded as `m + s * z` where `z` is the oracle's standard-normal draw;
  `np.random.uniform(a, b)` as `a + (b - a) * u` with `u ∈ [0, 1)`;
  `np.random.exponential(s)` as `s * e` with `e ≥ 0`; `np.random.random()`
  as `u ∈ [0, 1)`.  Oracles are indexed by the loop indices (timestamp
  index, sensor index) at which the script performs the draw.
-/

namespace SparkCity

/-- `SmartCityDataGenerator.generate_timestamps`, fuel-indexed version of the
`while current < self.end_time` loop.  The fuel only serves termination:
`stop - cur` units suffice whenever the interval is positive, which holds at
every call site (intervals 5, 10, 15, 30). -/
def genTsFuel : ℕ → ℕ → ℕ → ℕ → List ℕ
  | 0, _, _, _ => []
  | fuel + 1, cur, stop, interval =>
    if cur < stop then cur :: genTsFuel fuel (cur + interval) stop interval
    else []

/-- `SmartCityDataGenerator.generate_timestamps(interval_minutes)`: starting
from `start`, repeatedly append the current instant and advance by
`interval` minutes while strictly below `stop`. -/
def generate_timestamps (start stop interval : ℕ) : List ℕ :=
  genTsFuel (stop - start) start stop interval

/-- `timestamp.hour` for a timestamp in minutes since a midnight. -/
def hour (t : ℕ) : ℕ := t / 60 % 24

/-- `timestamp.weekday()` for a timestamp in minutes since a Monday
midnight: Monday = 0, ..., Sunday = 6. -/
def weekday (t : ℕ) : ℕ := t / (24 * 60) % 7

/-- `is_rush_hour = (7 <= hour <= 9) or (17 <= hour <= 19)`. -/
def is_rush_hour (h : ℕ) : Prop := (7 ≤ h ∧ h ≤ 9) ∨ (17 ≤ h ∧ h ≤ 19)

instance : DecidablePred is_rush_hour := fun h =>
  inferInstanceAs (Decidable ((7 ≤ h ∧ h ≤ 9) ∨ (17 ≤ h ∧ h ≤ 19)))

/-- `is_weekend = timestamp.weekday() >= 5`. -/
def is_weekend (t : ℕ) : Prop := 5 ≤ weekday t

instance : DecidablePred is_weekend := fun t =>
  inferInstanceAs (Decidable (5 ≤ weekday t))

/-- `is_business_hours = 8 <= hour <= 18`. -/
def is_business_hours (h : ℕ) : Prop := 8 ≤ h ∧ h ≤ 18

instance : DecidablePred is_business_hours := fun h =>
  inferInstanceAs (Decidable (8 ≤ h ∧ h ≤ 18))

/-- Python `int()` applied to a float: truncation toward zero. -/
def ratTrunc (q : ℚ) : ℤ := if q < 0 then ⌈q⌉ else ⌊q⌋

/-- `np.random.uniform(lo, hi)` with oracle draw `u ∈ [0, 1)`. -/
def uniformIn (lo hi u : ℚ) : ℚ := lo + (hi - lo) * u

/-- City bounding box constants from the script header. -/
def CITY_LAT_MIN : ℚ := 40.7
def CITY_LAT_MAX : ℚ := 40.8
def CITY_LON_MIN : ℚ := -74.02
def CITY_LON_MAX : ℚ := -73.9

/-- Oracle draws for one sensor location (`np.random.uniform` for lat/lon). -/
structure LocNoise where
  u_lat : ℚ
  u_lon : ℚ
deriving DecidableEq

/-- Oracle draws consumed for one traffic reading: the standard-normal
draws behind `np.random.normal` for the vehicle count and the speed. -/
structure TrafficNoise where
  z_vc : ℚ
  z_speed : ℚ
deriving DecidableEq

/-- One element of `sensor_locations` in `generate_traffic_sensors`.  The
id string `TRAFFIC_{i:03d}` is modelled by its sequence number `idx`. -/
structure TrafficSensor where
  idx : ℕ
  lat : ℚ
  lon : ℚ
  road_type : String
deriving DecidableEq

/-- One row appended to `traffic_data`. -/
structure TrafficRecord where
  sensor_idx : ℕ
  timestamp : ℕ
  location_lat : ℚ
  location_lon : ℚ
  vehicle_count : ℤ
  avg_speed : ℚ
  congestion_level : String
  road_type : String
deriving DecidableEq

/-- `base_count = 30 if sensor["road_type"] == "highway" else 15`. -/
def base_count (road_type : String) : ℚ :=
  if road_type = "highway" then 30 else 15

/-- The body of the inner loop of `generate_traffic_sensors` for one
(timestamp, sensor) pair. -/
def trafficRecord (t : ℕ) (s : TrafficSensor) (n : TrafficNoise) :
    TrafficRecord :=
  let base := base_count s.road_type
  if is_rush_hour (hour t) ∧ ¬ is_weekend t then
    let vehicle_count := ratTrunc (base * 2 + base * 0.3 * n.z_vc)
    let avg_speed := max 10 (25 + 10 * n.z_speed)
    let congestion := if base * 1.5 < (vehicle_count : ℚ) then "high" else "medium"
    { sensor_idx := s.idx, timestamp := t, location_lat := s.lat,
      location_lon := s.lon, vehicle_count := max 0 vehicle_count,
      avg_speed := max 5 avg_speed, congestion_level := congestion,
      road_type := s.road_type }
  else
    let vehicle_count := ratTrunc (base + base * 0.4 * n.z_vc)
    let avg_speed := 50 + 15 * n.z_speed
    let congestion := if (vehicle_count : ℚ) < base * 0.7 then "low" else "medium"
    { sensor_idx := s.idx, timestamp := t, location_lat := s.lat,
      location_lon := s.lon, vehicle_count := max 0 vehicle_count,
      avg_speed := max 5 avg_speed, congestion_level := congestion,
      road_type := s.road_type }

/-- `sensor_locations`: 50 sensors with ids 1..50, uniformly drawn
coordinates and an `np.random.choice` road type (oracle `roadChoice`). -/
def sensor_locations (loc : ℕ → LocNoise) (roadChoice : ℕ → String) :
    List TrafficSensor :=
  (List.range' 1 50).map fun i =>
    { idx := i, lat := uniformIn CITY_LAT_MIN CITY_LAT_MAX (loc i).u_lat,
      lon := uniformIn CITY_LON_MIN CITY_LON_MAX (loc i).u_lon,
      road_type := roadChoice i }

/-- `generate_traffic_sensors`: one record per (timestamp, sensor) pair, at
a 5-minute interval. -/
def generate_traffic_sensors (start stop : ℕ) (loc : ℕ → LocNoise)
    (roadChoice : ℕ → String) (noise : ℕ → ℕ → TrafficNoise) :
    List TrafficRecord :=
  let sensors := sensor_locations loc roadChoice
  (generate_timestamps start stop 5).enum.flatMap fun ti =>
    sensors.enum.map fun si => trafficRecord ti.2 si.2 (noise ti.1 si.1)

/-- Oracle draws consumed for one air-quality reading. -/
structure AQNoise where
  z_pm25 : ℚ
  z_pm10 : ℚ
  z_no2 : ℚ
  z_co : ℚ
  z_temp : ℚ
  u_humidity : ℚ
deriving DecidableEq

/-- One element of `monitor_locations` in `generate_air_quality_data`. -/
structure AQMonitor where
  idx : ℕ
  lat : ℚ
  lon : ℚ
deriving DecidableEq

/-- One object appended to `air_quality_data`. -/
structure AQRecord where
  sensor_idx : ℕ
  timestamp : ℕ
  location_lat : ℚ
  location_lon : ℚ
  pm25 : ℚ
  pm10 : ℚ
  no2 : ℚ
  co : ℚ
  temperature : ℚ
  humidity : ℚ
deriving DecidableEq

/-- The body of the inner loop of `generate_air_quality_data` for one
(timestamp, monitor) pair. -/
def airQualityRecord (t : ℕ) (m : AQMonitor) (n : AQNoise) : AQRecord :=
  let pollution_factor : ℚ := if is_rush_hour (hour t) then 1.3 else 1.0
  { sensor_idx := m.idx, timestamp := t, location_lat := m.lat,
    location_lon := m.lon,
    pm25 := max 0 (25 * pollution_factor + 8 * n.z_pm25),
    pm10 := max 0 (40 * pollution_factor + 12 * n.z_pm10),
    no2 := max 0 (30 * pollution_factor + 10 * n.z_no2),
    co := max 0 (1.2 * pollution_factor + 0.4 * n.z_co),
    temperature := 20 + 8 * n.z_temp,
    humidity := uniformIn 30 80 n.u_humidity }

/-- `monitor_locations`: 20 monitors with ids 1..20. -/
def monitor_locations (loc : ℕ → LocNoise) : List AQMonitor :=
  (List.range' 1 20).map fun i =>
    { idx := i, lat := uniformIn CITY_LAT_MIN CITY_LAT_MAX (loc i).u_lat,
      lon := uniformIn CITY_LON_MIN CITY_LON_MAX (loc i).u_lon }

/-- `generate_air_quality_data`: one record per (timestamp, monitor) pair,
at a 15-minute interval. -/
def generate_air_quality_data (start stop : ℕ) (loc : ℕ → LocNoise)
    (noise : ℕ → ℕ → AQNoise) : List AQRecord :=
  let monitors := monitor_locations loc
  (generate_timestamps start stop 15).enum.flatMap fun ti =>
    monitors.enum.map fun mi => airQualityRecord ti.2 mi.2 (noise ti.1 mi.1)

/-- Oracle draws consumed for one weather reading: `z_temp` behind
`np.random.normal(0, 1)`, `z_hum` behind `np.random.normal(60, 15)`,
`e_wind`/`e_prec` (nonnegative standard-exponential draws) behind
`np.random.exponential`, `u_dir` behind `np.random.uniform(0, 360)`,
`u_prec` behind `np.random.random()`, `z_press` behind
`np.random.normal(1013.25, 10)`. -/
structure WeatherNoise where
  z_temp : ℚ
  z_hum : ℚ
  e_wind : ℚ
  u_dir : ℚ
  e_prec : ℚ
  u_prec : ℚ
  z_press : ℚ
deriving DecidableEq

/-- One element of `station_locations` in `generate_weather_data`. -/
structure WeatherStation where
  idx : ℕ
  lat : ℚ
  lon : ℚ
deriving DecidableEq

/-- One row appended to `weather_data`. -/
structure WeatherRecord where
  station_idx : ℕ
  timestamp : ℕ
  location_lat : ℚ
  location_lon : ℚ
  temperature : ℚ
  humidity : ℚ
  wind_speed : ℚ
  wind_direction : ℚ
  precipitation : ℚ
  pressure : ℚ
deriving DecidableEq

/-- `hour_factor = np.sin((timestamp.hour - 6) * np.pi / 12) * 0.3`.  The
floating-point sine is modelled by the oracle `sinTerm` applied to the
hour: `sinTerm h` stands for the numeric value of
`np.sin((h - 6) * np.pi / 12)`, a pure function of the hour. -/
def hour_factor (sinTerm : ℕ → ℚ) (h : ℕ) : ℚ := sinTerm h * 0.3

/-- `day_temp = base_temp + np.random.normal(0, 3) + hour_factor * 5`,
computed once per timestamp (`base_temp = 20`, `z` is the standard-normal
draw behind `np.random.normal(0, 3)`). -/
def day_temp (sinTerm : ℕ → ℚ) (z : ℚ) (h : ℕ) : ℚ :=
  20 + 3 * z + hour_factor sinTerm h * 5

/-- The body of the inner loop of `generate_weather_data` for one
(timestamp, station) pair, given the shared `day_temp` value `dt`. -/
def weatherRecord (st : WeatherStation) (t : ℕ) (dt : ℚ) (n : WeatherNoise) :
    WeatherRecord :=
  { station_idx := st.idx, timestamp := t, location_lat := st.lat,
    location_lon := st.lon,
    temperature := dt + n.z_temp,
    humidity := max 20 (min 100 (60 + 15 * n.z_hum)),
    wind_speed := max 0 (8 * n.e_wind),
    wind_direction := uniformIn 0 360 n.u_dir,
    precipitation := if n.u_prec < 0.1 then max 0 (0.5 * n.e_prec) else 0,
    pressure := 1013.25 + 10 * n.z_press }

/-- `station_locations`: 10 stations with ids 1..10. -/
def station_locations (loc : ℕ → LocNoise) : List WeatherStation :=
  (List.range' 1 10).map fun i =>
    { idx := i, lat := uniformIn CITY_LAT_MIN CITY_LAT_MAX (loc i).u_lat,
      lon := uniformIn CITY_LON_MIN CITY_LON_MAX (loc i).u_lon }

/-- `generate_weather_data`: at a 30-minute interval, for each timestamp a
single shared `day_temp` is computed, then one record per station. -/
def generate_weather_data (start stop : ℕ) (loc : ℕ → LocNoise)
    (sinTerm : ℕ → ℚ) (dayZ : ℕ → ℚ) (noise : ℕ → ℕ → WeatherNoise) :
    List WeatherRecord :=
  let stations := station_locations loc
  (generate_timestamps start stop 30).enum.flatMap fun ti =>
    let dt := day_temp sinTerm (dayZ ti.1) (hour ti.2)
    stations.enum.map fun si => weatherRecord si.2 ti.2 dt (noise ti.1 si.1)

/-- Oracle draws consumed for one energy reading. -/
structure EnergyNoise where
  u_power : ℚ
  z_volt : ℚ
  u_pf : ℚ
deriving DecidableEq

/-- One element of `meter_locations` in `generate_energy_data`. -/
structure EnergyMeter where
  idx : ℕ
  lat : ℚ
  lon : ℚ
  building_type : String
deriving DecidableEq

/-- One row appended to `energy_data`. -/
structure EnergyRecord where
  meter_idx : ℕ
  timestamp : ℕ
  building_type : String
  location_lat : ℚ
  location_lon : ℚ
  power_consumption : ℚ
  voltage : ℚ
  current : ℚ
  power_factor : ℚ
deriving DecidableEq

/-- The `base_consumption` dict of `generate_energy_data`.  Looking up any
other string raises `KeyError` in Python; meters only ever carry one of the
five listed types, so the final 0 branch is unreachable at call sites. -/
def base_consumption (bt : String) : ℚ :=
  if bt = "residential" then 3.0
  else if bt = "commercial" then 15.0
  else if bt = "industrial" then 50.0
  else if bt = "office" then 20.0
  else if bt = "retail" then 25.0
  else 0

/-- The consumption-factor selection of `generate_energy_data`. -/
def consumption_factor (bt : String) (t : ℕ) : ℚ :=
  if bt = "commercial" ∨ bt = "office" ∨ bt = "retail" then
    if is_business_hours (hour t) ∧ ¬ is_weekend t then 1.5 else 0.3
  else if bt = "industrial" then 1.0
  else if 18 ≤ hour t ∧ hour t ≤ 22 then 1.2 else 0.8

/-- The body of the inner loop of `generate_energy_data` for one
(timestamp, meter) pair. -/
def energyRecord (t : ℕ) (m : EnergyMeter) (n : EnergyNoise) : EnergyRecord :=
  let power_consumption :=
    base_consumption m.building_type * consumption_factor m.building_type t *
      uniformIn 0.7 1.3 n.u_power
  let voltage : ℚ := 240 + 5 * n.z_volt
  { meter_idx := m.idx, timestamp := t, building_type := m.building_type,
    location_lat := m.lat, location_lon := m.lon,
    power_consumption := power_consumption, voltage := voltage,
    current := power_consumption / voltage * 1000,
    power_factor := uniformIn 0.85 0.95 n.u_pf }

/-- `meter_locations`: 200 meters with ids 1..200 and an
`np.random.choice` building type (oracle `bldChoice`). -/
def meter_locations (loc : ℕ → LocNoise) (bldChoice : ℕ → String) :
    List EnergyMeter :=
  (List.range' 1 200).map fun i =>
    { idx := i, lat := uniformIn CITY_LAT_MIN CITY_LAT_MAX (loc i).u_lat,
      lon := uniformIn CITY_LON_MIN CITY_LON_MAX (loc i).u_lon,
      building_type := bldChoice i }

/-- `generate_energy_data`: one record per (timestamp, meter) pair, at a
10-minute interval. -/
def generate_energy_data (start stop : ℕ) (loc : ℕ → LocNoise)
    (bldChoice : ℕ → String) (noise : ℕ → ℕ → EnergyNoise) :
    List EnergyRecord :=
  let meters := meter_locations loc bldChoice
  (generate_timestamps start stop 10).enum.flatMap fun ti =>
    meters.enum.map fun mi => energyRecord ti.2 mi.2 (noise ti.1 mi.1)

/-- One row of the static `zones_data` table. -/
structure ZoneRecord where
  zone_id : String
  zone_name : String
  zone_type : String
  lat_min : ℚ
  lat_max : ℚ
  lon_min : ℚ
  lon_max : ℚ
  population : ℕ
deriving DecidableEq

/-- The hand-authored 8-row table of `generate_city_zones`. -/
def zones_data : List ZoneRecord :=
  [{ zone_id := "ZONE_001", zone_name := "Downtown", zone_type := "commercial",
     lat_min := 40.72, lat_max := 40.74, lon_min := -74.01, lon_max := -73.99,
     population := 25000 },
   { zone_id := "ZONE_002", zone_name := "Financial District",
     zone_type := "commercial", lat_min := 40.70, lat_max := 40.72,
     lon_min := -74.02, lon_max := -74.00, population := 15000 },
   { zone_id := "ZONE_003", zone_name := "Residential North",
     zone_type := "residential", lat_min := 40.76, lat_max := 40.80,
     lon_min := -74.00, lon_max := -73.98, population := 45000 },
   { zone_id := "ZONE_004", zone_name := "Residential South",
     zone_type := "residential", lat_min := 40.70, lat_max := 40.72,
     lon_min := -73.98, lon_max := -73.96, population := 38000 },
   { zone_id := "ZONE_005", zone_name := "Industrial Park",
     zone_type := "industrial", lat_min := 40.74, lat_max := 40.76,
     lon_min := -74.02, lon_max := -74.00, population := 5000 },
   { zone_id := "ZONE_006", zone_name := "Tech Campus",
     zone_type := "commercial", lat_min := 40.76, lat_max := 40.78,
     lon_min := -73.98, lon_max := -73.96, population := 12000 },
   { zone_id := "ZONE_007", zone_name := "University Area",
     zone_type := "mixed", lat_min := 40.72, lat_max := 40.74,
     lon_min := -73.96, lon_max := -73.94, population := 22000 },
   { zone_id := "ZONE_008", zone_name := "Shopping District",
     zone_type := "retail", lat_min := 40.74, lat_max := 40.76,
     lon_min := -73.96, lon_max := -73.94, population := 8000 }]

/-- How one run of the script's `try` block ends: all five generators
complete, or a generator raises `ImportError`, or it raises any other
exception. -/
inductive RunOutcome where
  | success : RunOutcome
  | importError : String → RunOutcome
  | otherError : String → RunOutcome

/-- The value `main()` returns (and the process exit code, via
`exit(main())`), from the `try`/`except` of lines 291-307: the success
path reaches the final `return 0`; the `except ImportError` arm prints two
diagnostics and, having no `return` of its own, falls through to the same
final `return 0`; the `except Exception` arm executes `return 1`. -/
def main_exit_code : RunOutcome → ℕ
  | .success => 0
  | .importError _ => 0
  | .otherError _ => 1

/-- With a positive interval, any fuel of at least `stop - cur` steps gives
the same list: the loop makes at most `stop - cur` iterations. -/
lemma genTsFuel_fuel_irrel (interval : ℕ) (hpos : 0 < interval) :
    ∀ f₁ f₂ cur stop, stop - cur ≤ f₁ → stop - cur ≤ f₂ →
      genTsFuel f₁ cur stop interval = genTsFuel f₂ cur stop interval := by
  intro f₁
  induction f₁ with
  | zero =>
    intro f₂ cur stop h₁ h₂
    have hcs : ¬ cur < stop := by omega
    cases f₂ with
    | zero => rfl
    | succ f₂ => simp [genTsFuel, hcs]
  | succ f₁ ih =>
    intro f₂ cur stop h₁ h₂
    cases f₂ with
    | zero =>
      have hcs : ¬ cur < stop := by omega
      simp [genTsFuel, hcs]
    | succ f₂ =>
      by_cases hcs : cur < stop
      · simp only [genTsFuel, hcs, if_true]
        have := ih f₂ (cur + interval) stop (by omega) (by omega)
        rw [this]
      · simp [genTsFuel, hcs]

/-- One unfolding of the timestamp loop when at least one element remains. -/
lemma generate_timestamps_cons {start stop interval : ℕ} (hpos : 0 < interval)
    (h : start < stop) :
    generate_timestamps start stop interval =
      start :: generate_timestamps (start + interval) stop interval := by
  unfold generate_timestamps
  obtain ⟨f, hf⟩ : ∃ f, stop - start = f + 1 := ⟨stop - start - 1, by omega⟩
  rw [hf]
  simp only [genTsFuel, h, if_true]
  congr 1
  exact genTsFuel_fuel_irrel interval hpos f (stop - (start + interval))
    (start + interval) stop (by omega) (by omega)

/-- The loop yields nothing when the window is empty. -/
lemma generate_timestamps_nil {start stop interval : ℕ} (h : stop ≤ start) :
    generate_timestamps start stop interval = [] := by
  unfold generate_timestamps
  have : stop - start = 0 := by omega
  rw [this]
  rfl

/-- Closed form for the series length, by induction on the window width:
the loop emits `⌈(stop - start) / interval⌉` timestamps. -/
lemma generate_timestamps_length_aux (interval : ℕ) (hpos : 0 < interval) :
    ∀ d start stop, stop - start ≤ d →
      (generate_timestamps start stop interval).length =
        (stop - start + interval - 1) / interval := by
  intro d
  induction d with
  | zero =>
    intro start stop h
    rw [generate_timestamps_nil (by omega)]
    have hz : stop - start = 0 := by omega
    rw [hz]
    exact (Nat.div_eq_of_lt (by omega)).symm
  | succ d ih =>
    intro start stop h
    by_cases hlt : start < stop
    · rw [generate_timestamps_cons hpos hlt, List.length_cons,
        ih (start + interval) stop (by omega)]
      by_cases hge : interval ≤ stop - start
      · have e1 : stop - (start + interval) = stop - start - interval := by omega
        have e2 : stop - start - interval + interval - 1 = stop - start - 1 := by
          omega
        have e3 : stop - start + interval - 1 = (stop - start - 1) + interval := by
          omega
        rw [e1, e2, e3, Nat.add_div_right _ hpos]
      · have e1 : stop - (start + interval) = 0 := by omega
        have e2 : (0 : ℕ) + interval - 1 = interval - 1 := by omega
        have e3 : stop - start + interval - 1 = interval + (stop - start - 1) := by
          omega
        rw [e1, e2, Nat.div_eq_of_lt (by omega), e3, Nat.add_div_left _ hpos,
          Nat.div_eq_of_lt (by omega)]
    · rw [generate_timestamps_nil (by omega)]
      have hz : stop - start = 0 := by omega
      rw [hz]
      exact (Nat.div_eq_of_lt (by omega)).symm

/-- Closed form for the series length. -/
lemma generate_timestamps_length {interval : ℕ} (hpos : 0 < interval)
    (start stop : ℕ) :
    (generate_timestamps start stop interval).length =
      (stop - start + interval - 1) / interval :=
  generate_timestamps_length_aux interval hpos (stop - start) start stop le_rfl

/-- Every element the loop emits is strictly below `stop`. -/
lemma genTsFuel_mem_lt {stop interval : ℕ} :
    ∀ f cur (x : ℕ), x ∈ genTsFuel f cur stop interval → x < stop := by
  intro f
  induction f with
  | zero => intro cur x hx; simp [genTsFuel] at hx
  | succ f ih =>
    intro cur x hx
    by_cases h : cur < stop
    · simp only [genTsFuel, h, if_true, List.mem_cons] at hx
      rcases hx with rfl | hx
      · exact h
      · exact ih _ x hx
    · simp [genTsFuel, h] at hx

/-- The loop's output is empty or starts at the current instant. -/
lemma genTsFuel_head? {stop interval : ℕ} (f cur : ℕ) :
    genTsFuel f cur stop interval = [] ∨
      (genTsFuel f cur stop interval).head? = some cur := by
  cases f with
  | zero => exact Or.inl rfl
  | succ f =>
    by_cases h : cur < stop
    · right; simp [genTsFuel, h]
    · left; simp [genTsFuel, h]

/-- Each emitted element is the previous one plus the interval. -/
lemma genTsFuel_chain' {stop interval : ℕ} :
    ∀ f cur, List.Chain' (fun a b => b = a + interval)
      (genTsFuel f cur stop interval) := by
  intro f
  induction f with
  | zero => intro cur; simp [genTsFuel]
  | succ f ih =>
    intro cur
    by_cases h : cur < stop
    · simp only [genTsFuel, h, if_true]
      refine List.chain'_cons'.mpr ⟨?_, ih (cur + interval)⟩
      intro y hy
      rcases @genTsFuel_head? stop interval f (cur + interval) with hnil | hhd
      · rw [hnil] at hy; simp at hy
      · rw [hhd] at hy; simp at hy; omega
    · simp [genTsFuel, h]

/-- Summing a constant over a list. -/
lemma sum_map_const_nat {α : Type _} (l : List α) (c : ℕ) :
    (l.map fun _ => c).sum = l.length * c := by
  induction l with
  | nil => simp
  | cons a l ih => simp [ih, Nat.succ_mul]; omega

/-- The nested per-timestamp/per-sensor loop produces
`#timestamps * #sensors` rows. -/
lemma length_enum_flatMap {α β γ : Type _} (l : List α) (m : List β)
    (g : ℕ × α → ℕ × β → γ) :
    (l.enum.flatMap fun p => m.enum.map (g p)).length =
      l.length * m.length := by
  rw [List.length_flatMap]
  have h : List.map (List.length ∘ fun p => List.map (g p) m.enum) l.enum =
      l.enum.map (fun _ => m.length) := by
    simp [Function.comp_def, List.enum_length]
  rw [h, sum_map_const_nat, List.enum_length]

/-- Row `i * #inner + j` of the nested loop is the row the inner loop body
produced at outer index `i` and inner index `j`. -/
lemma enumFrom_flatMap_getElem? {α β γ : Type _} (m : List β)
    (g : ℕ × α → ℕ × β → γ) (j : ℕ) (hj : j < m.length) :
    ∀ (l : List α) (s i : ℕ) (hi : i < l.length),
      ((l.enumFrom s).flatMap fun p => m.enum.map (g p))[i * m.length + j]? =
        some (g (s + i, l[i]) (j, m[j])) := by
  intro l
  induction l with
  | nil => intro s i hi; simp at hi
  | cons a tl ih =>
    intro s i hi
    rw [List.enumFrom_cons, List.flatMap_cons]
    cases i with
    | zero =>
      have hlen : (List.map (g (s, a)) m.enum).length = m.length := by
        simp [List.enum_length]
      rw [List.getElem?_append]
      have hlt : 0 * m.length + j < (List.map (g (s, a)) m.enum).length := by
        simpa [hlen] using hj
      rw [if_pos hlt]
      have hj' : 0 * m.length + j < m.enum.length := by
        simpa [List.enum_length] using hj
      rw [List.getElem?_map, List.getElem?_eq_getElem hj']
      simp [List.getElem_enum]
    | succ i' =>
      have hk : (List.map (g (s, a)) m.enum).length = m.length := by
        simp [List.enum_length]
      have he : (i' + 1) * m.length + j =
          (List.map (g (s, a)) m.enum).length + (i' * m.length + j) := by
        rw [hk, Nat.succ_mul]; omega
      rw [he, List.getElem?_append_right (by omega)]
      have hsub : (List.map (g (s, a)) m.enum).length + (i' * m.length + j) -
          (List.map (g (s, a)) m.enum).length = i' * m.length + j := by omega
      rw [hsub, ih (s + 1) i' (by simpa using Nat.lt_of_succ_lt_succ hi)]
      have hs : s + 1 + i' = s + (i' + 1) := by omega
      rw [hs, List.getElem_cons_succ a tl i' hi]

/-- `enumFrom_flatMap_getElem?` specialised to `List.enum`. -/
lemma enum_flatMap_getElem? {α β γ : Type _} (l : List α) (m : List β)
    (g : ℕ × α → ℕ × β → γ) (i j : ℕ) (hi : i < l.length)
    (hj : j < m.length) :
    (l.enum.flatMap fun p => m.enum.map (g p))[i * m.length + j]? =
      some (g (i, l[i]) (j, m[j])) := by
  have h := enumFrom_flatMap_getElem? m g j hj l 0 i hi
  simpa using h

/-- The traffic clamps: a floored vehicle count and a speed floored at 5
(the rush-hour branch additionally floors the raw speed at 10). -/
lemma trafficRecord_bounds (t : ℕ) (s : TrafficSensor) (n : TrafficNoise) :
    0 ≤ (trafficRecord t s n).vehicle_count ∧
      5 ≤ (trafficRecord t s n).avg_speed := by
  unfold trafficRecord
  split <;> exact ⟨le_max_left 0 _, le_max_left 5 _⟩

/-- The weather clamps: humidity capped into [20, 100], wind speed and
precipitation floored at 0. -/
lemma weatherRecord_bounds (st : WeatherStation) (t : ℕ) (dt : ℚ)
    (n : WeatherNoise) :
    20 ≤ (weatherRecord st t dt n).humidity ∧
      (weatherRecord st t dt n).humidity ≤ 100 ∧
      0 ≤ (weatherRecord st t dt n).wind_speed ∧
      0 ≤ (weatherRecord st t dt n).precipitation := by
  refine ⟨le_max_left 20 _, ?_, le_max_left 0 _, ?_⟩
  · exact max_le (by norm_num) (min_le_left _ _)
  · show (0 : ℚ) ≤ if n.u_prec < 0.1 then max 0 (0.5 * n.e_prec) else 0
    split
    · exact le_max_left 0 _
    · exact le_refl 0

/-- The air-quality clamps: the four pollutant fields are floored at 0. -/
lemma airQualityRecord_bounds (t : ℕ) (m : AQMonitor) (n : AQNoise) :
    0 ≤ (airQualityRecord t m n).pm25 ∧ 0 ≤ (airQualityRecord t m n).pm10 ∧
      0 ≤ (airQualityRecord t m n).no2 ∧ 0 ≤ (airQualityRecord t m n).co :=
  ⟨le_max_left 0 _, le_max_left 0 _, le_max_left 0 _, le_max_left 0 _⟩

/-- C1 counterexample.  `__init__` evaluates `datetime.now()` twice:
`start_time = now₁ - 7 days` on line 31 and `end_time = now₂` on line 32,
and in a real run `now₂` is later than `now₁`.  The loop arithmetic of
`generate_timestamps` is unit-agnostic, so this is stated at `datetime`'s
own resolution of one microsecond (7 days = 604800000000 µs, the intervals
`timedelta(minutes = 5/15/30/10)` are 300000000/900000000/1800000000/
600000000 µs): with `now₂` just one microsecond after `now₁`, the window
is 604800000001 µs and the condition `current < end_time` admits the
element `start_time + 7 days`, so the series has 2017 elements at the
5-minute interval — not the claimed exactly 2016 — and likewise 673, 337
and 1009 at the 15-, 30- and 10-minute intervals. -/
theorem c1_counterexample_two_now_calls :
    (generate_timestamps 0 (604800000000 + 1) 300000000).length ≠ 2016 ∧
    (generate_timestamps 0 (604800000000 + 1) 300000000).length = 2017 ∧
    (generate_timestamps 0 (604800000000 + 1) 900000000).length = 673 ∧
    (generate_timestamps 0 (604800000000 + 1) 1800000000).length = 337 ∧
    (generate_timestamps 0 (604800000000 + 1) 600000000).length = 1009 := by
  refine ⟨?_, ?_, ?_, ?_, ?_⟩ <;>
      rw [generate_timestamps_length (by norm_num)] <;> norm_num

/-- C1 (amended): with `start_time = now₁ - 7 days` and
`end_time = now₂ = now₁ + delta` from the constructor's two
`datetime.now()` calls (times in microseconds, `datetime`'s resolution,
for every start instant): when `delta = 0` — the two calls returning the
same instant — the series has exactly 2016 elements at the 5-minute
interval, 672 at 15 minutes, 336 at 30 minutes and 1008 at 10 minutes;
when `0 < delta ≤ one interval` — the real-run case, `delta` typically
far below a second — the series has exactly one more element: 2017, 673,
337 and 1009 respectively. -/
theorem c1_timestamp_series_counts (start delta : ℕ) :
    (delta = 0 →
      (generate_timestamps start (start + 604800000000 + delta)
        300000000).length = 2016 ∧
      (generate_timestamps start (start + 604800000000 + delta)
        900000000).length = 672 ∧
      (generate_timestamps start (start + 604800000000 + delta)
        1800000000).length = 336 ∧
      (generate_timestamps start (start + 604800000000 + delta)
        600000000).length = 1008) ∧
    (0 < delta →
      (delta ≤ 300000000 →
        (generate_timestamps start (start + 604800000000 + delta)
          300000000).length = 2017) ∧
      (delta ≤ 900000000 →
        (generate_timestamps start (start + 604800000000 + delta)
          900000000).length = 673) ∧
      (delta ≤ 1800000000 →
        (generate_timestamps start (start + 604800000000 + delta)
          1800000000).length = 337) ∧
      (delta ≤ 600000000 →
        (generate_timestamps start (start + 604800000000 + delta)
          600000000).length = 1009)) := by
  have hw : start + 604800000000 + delta - start = 604800000000 + delta := by
    omega
  constructor
  · intro h0
    refine ⟨?_, ?_, ?_, ?_⟩ <;>
      rw [generate_timestamps_length (by norm_num), hw] <;> omega
  · intro hpos
    refine ⟨?_, ?_, ?_, ?_⟩ <;> intro hle <;>
      rw [generate_timestamps_length (by norm_num), hw] <;> omega

/-- Witness for C1: at start 0 the exact 7-day window yields 2016
elements at the 5-minute interval, and a window long by one microsecond
yields 2017 at 5 minutes and 673 at 15 minutes. -/
theorem c1_timestamp_series_counts_witness :
    (generate_timestamps 0 (0 + 604800000000 + 0) 300000000).length = 2016 ∧
    (generate_timestamps 0 (0 + 604800000000 + 1) 300000000).length = 2017 ∧
    (generate_timestamps 0 (0 + 604800000000 + 1) 900000000).length = 673 := by
  have h0 := (c1_timestamp_series_counts 0 0).1 rfl
  have h1 := (c1_timestamp_series_counts 0 1).2 (by norm_num)
  exact ⟨h0.1, h1.1 (by norm_num), h1.2.1 (by norm_num)⟩

/-- C2 (evidence for the code bug): `main` maps a run in which a generator
raised `ImportError` to return value 0, not 1 — the `except ImportError`
arm prints its diagnostics and falls through to the final `return 0` —
while a run that raised any other exception returns 1 and a clean run
returns 0. -/
theorem c2_import_error_exit_code :
    main_exit_code (.importError "No module named pandas") = 0 ∧
    main_exit_code .success = 0 ∧
    ∀ msg, main_exit_code (.otherError msg) = 1 :=
  ⟨rfl, rfl, fun _ => rfl⟩

/-- C3: each time-series dataset yields exactly (number of timestamps in
its series) × (its number of sensors) records — 50 traffic sensors, 20
air-quality monitors, 10 weather stations, 200 energy meters — and the
zone reference table always has exactly 8 rows. -/
theorem c3_record_counts (start stop : ℕ)
    (tLoc aLoc wLoc eLoc : ℕ → LocNoise) (tRoad eBld : ℕ → String)
    (tN : ℕ → ℕ → TrafficNoise) (aN : ℕ → ℕ → AQNoise)
    (sinTerm : ℕ → ℚ) (dayZ : ℕ → ℚ) (wN : ℕ → ℕ → WeatherNoise)
    (eN : ℕ → ℕ → EnergyNoise) :
    (generate_traffic_sensors start stop tLoc tRoad tN).length =
      (generate_timestamps start stop 5).length * 50 ∧
    (generate_air_quality_data start stop aLoc aN).length =
      (generate_timestamps start stop 15).length * 20 ∧
    (generate_weather_data start stop wLoc sinTerm dayZ wN).length =
      (generate_timestamps start stop 30).length * 10 ∧
    (generate_energy_data start stop eLoc eBld eN).length =
      (generate_timestamps start stop 10).length * 200 ∧
    zones_data.length = 8 := by
  refine ⟨?_, ?_, ?_, ?_, rfl⟩
  · simp only [generate_traffic_sensors]
    rw [length_enum_flatMap]
    simp [sensor_locations]
  · simp only [generate_air_quality_data]
    rw [length_enum_flatMap]
    simp [monitor_locations]
  · simp only [generate_weather_data]
    rw [length_enum_flatMap]
    simp [station_locations]
  · simp only [generate_energy_data]
    rw [length_enum_flatMap]
    simp [meter_locations]

/-- C4: the congestion level of a traffic record is a pure function of the
sampled vehicle count and the base count: in the rush-hour-and-not-weekend
branch it is "high" iff count > 1.5·base and "medium" otherwise (so
"medium" at count = 1.5·base exactly); in the other branch it is "low" iff
count < 0.7·base and "medium" otherwise (so "medium" at count = 0.7·base
exactly). -/
theorem c4_congestion_classification (t : ℕ) (s : TrafficSensor)
    (n : TrafficNoise) :
    (is_rush_hour (hour t) ∧ ¬ is_weekend t →
      (((trafficRecord t s n).congestion_level = "high" ↔
          base_count s.road_type * 1.5 <
            ((ratTrunc (base_count s.road_type * 2 +
              base_count s.road_type * 0.3 * n.z_vc) : ℤ) : ℚ)) ∧
        ((trafficRecord t s n).congestion_level = "medium" ↔
          ((ratTrunc (base_count s.road_type * 2 +
              base_count s.road_type * 0.3 * n.z_vc) : ℤ) : ℚ) ≤
            base_count s.road_type * 1.5))) ∧
    (¬ (is_rush_hour (hour t) ∧ ¬ is_weekend t) →
      (((trafficRecord t s n).congestion_level = "low" ↔
          ((ratTrunc (base_count s.road_type +
              base_count s.road_type * 0.4 * n.z_vc) : ℤ) : ℚ) <
            base_count s.road_type * 0.7) ∧
        ((trafficRecord t s n).congestion_level = "medium" ↔
          base_count s.road_type * 0.7 ≤
            ((ratTrunc (base_count s.road_type +
              base_count s.road_type * 0.4 * n.z_vc) : ℤ) : ℚ)))) := by
  constructor
  · intro hc
    simp only [trafficRecord, if_pos hc]
    split_ifs with h
    · exact ⟨⟨fun _ => h, fun _ => rfl⟩,
        ⟨fun hmed => absurd hmed (by decide),
         fun hle => absurd h (not_lt.mpr hle)⟩⟩
    · exact ⟨⟨fun hh => absurd hh (by decide), fun hlt => absurd hlt h⟩,
        ⟨fun _ => not_lt.mp h, fun _ => rfl⟩⟩
  · intro hc
    simp only [trafficRecord, if_neg hc]
    split_ifs with h
    · exact ⟨⟨fun _ => h, fun _ => rfl⟩,
        ⟨fun hmed => absurd hmed (by decide),
         fun hge => absurd h (not_lt.mpr hge)⟩⟩
    · exact ⟨⟨fun hl => absurd hl (by decide), fun hlt => absurd hlt h⟩,
        ⟨fun _ => not_lt.mp h, fun _ => rfl⟩⟩

/-- Witness for C4: at 07:00 on a Monday a highway sensor with zero noise
samples 60 vehicles (> 45 = 1.5·30) and is classified "high"; at 00:00 it
samples 30 vehicles (not < 21 = 0.7·30) and is classified "medium". -/
theorem c4_congestion_classification_witness :
    (trafficRecord 420 ⟨1, 0, 0, "highway"⟩ ⟨0, 0⟩).congestion_level =
        "high" ∧
    (trafficRecord 0 ⟨1, 0, 0, "highway"⟩ ⟨0, 0⟩).congestion_level =
        "medium" := by
  constructor
  · exact ((c4_congestion_classification 420 ⟨1, 0, 0, "highway"⟩
      ⟨0, 0⟩).1 (by decide)).1.mpr (by norm_num [base_count, ratTrunc])
  · exact ((c4_congestion_classification 0 ⟨1, 0, 0, "highway"⟩
      ⟨0, 0⟩).2 (by decide)).2.mpr (by norm_num [base_count, ratTrunc])

/-- C5: the consumption factor is exactly 1.5 for commercial, office and
retail during business hours (hour in [8,18]) outside weekends and 0.3
otherwise; always 1.0 for industrial; 1.2 for residential when the hour is
in [18,22] and 0.8 otherwise; and power consumption is the base
consumption times that factor times the Uniform(0.7, 1.3) draw. -/
theorem c5_consumption_factor_selection (t : ℕ) (n : EnergyNoise) :
    (consumption_factor "commercial" t =
      if is_business_hours (hour t) ∧ ¬ is_weekend t then 1.5 else 0.3) ∧
    (consumption_factor "office" t =
      if is_business_hours (hour t) ∧ ¬ is_weekend t then 1.5 else 0.3) ∧
    (consumption_factor "retail" t =
      if is_business_hours (hour t) ∧ ¬ is_weekend t then 1.5 else 0.3) ∧
    consumption_factor "industrial" t = 1.0 ∧
    (consumption_factor "residential" t =
      if 18 ≤ hour t ∧ hour t ≤ 22 then 1.2 else 0.8) ∧
    ∀ (m : EnergyMeter), (energyRecord t m n).power_consumption =
      base_consumption m.building_type * consumption_factor m.building_type t *
        uniformIn 0.7 1.3 n.u_power := by
  refine ⟨?_, ?_, ?_, ?_, ?_, fun m => rfl⟩ <;> simp [consumption_factor]

/-- C6: in every generated dataset, every clamped field of every record
satisfies its bound: traffic vehicle_count ≥ 0 and avg_speed ≥ 5; weather
humidity ∈ [20,100], wind_speed ≥ 0 and precipitation ≥ 0; air-quality
pm25, pm10, no2 and co ≥ 0 — for all noise draws, bounded or not. -/
theorem c6_clamped_field_bounds (start stop : ℕ)
    (tLoc wLoc aLoc : ℕ → LocNoise) (tRoad : ℕ → String)
    (tN : ℕ → ℕ → TrafficNoise) (sinTerm : ℕ → ℚ) (dayZ : ℕ → ℚ)
    (wN : ℕ → ℕ → WeatherNoise) (aN : ℕ → ℕ → AQNoise) :
    (∀ r ∈ generate_traffic_sensors start stop tLoc tRoad tN,
        0 ≤ r.vehicle_count ∧ 5 ≤ r.avg_speed) ∧
    (∀ r ∈ generate_weather_data start stop wLoc sinTerm dayZ wN,
        20 ≤ r.humidity ∧ r.humidity ≤ 100 ∧
          0 ≤ r.wind_speed ∧ 0 ≤ r.precipitation) ∧
    (∀ r ∈ generate_air_quality_data start stop aLoc aN,
        0 ≤ r.pm25 ∧ 0 ≤ r.pm10 ∧ 0 ≤ r.no2 ∧ 0 ≤ r.co) := by
  refine ⟨?_, ?_, ?_⟩
  · intro r hr
    simp only [generate_traffic_sensors, List.mem_flatMap,
      List.mem_map] at hr
    obtain ⟨ti, -, si, -, rfl⟩ := hr
    exact trafficRecord_bounds _ _ _
  · intro r hr
    simp only [generate_weather_data, List.mem_flatMap, List.mem_map] at hr
    obtain ⟨ti, -, si, -, rfl⟩ := hr
    exact weatherRecord_bounds _ _ _ _
  · intro r hr
    simp only [generate_air_quality_data, List.mem_flatMap,
      List.mem_map] at hr
    obtain ⟨ti, -, mi, -, rfl⟩ := hr
    exact airQualityRecord_bounds _ _ _

/-- Witness for C6: concrete members of the three datasets generated over
a one-minute window with constant zero oracles satisfy their bounds. -/
theorem c6_clamped_field_bounds_witness :
    (0 ≤ (trafficRecord 0
        ⟨1, uniformIn CITY_LAT_MIN CITY_LAT_MAX 0,
          uniformIn CITY_LON_MIN CITY_LON_MAX 0, "highway"⟩
        ⟨0, 0⟩).vehicle_count ∧
      5 ≤ (trafficRecord 0
        ⟨1, uniformIn CITY_LAT_MIN CITY_LAT_MAX 0,
          uniformIn CITY_LON_MIN CITY_LON_MAX 0, "highway"⟩
        ⟨0, 0⟩).avg_speed) ∧
    20 ≤ (weatherRecord
        ⟨1, uniformIn CITY_LAT_MIN CITY_LAT_MAX 0,
          uniformIn CITY_LON_MIN CITY_LON_MAX 0⟩ 0
        (day_temp (fun _ => 0) 0 (hour 0))
        ⟨0, 0, 0, 0, 0, 0, 0⟩).humidity ∧
    0 ≤ (airQualityRecord 0
        ⟨1, uniformIn CITY_LAT_MIN CITY_LAT_MAX 0,
          uniformIn CITY_LON_MIN CITY_LON_MAX 0⟩
        ⟨0, 0, 0, 0, 0, 0⟩).pm25 := by
  have h := c6_clamped_field_bounds 0 1 (fun _ => ⟨0, 0⟩) (fun _ => ⟨0, 0⟩)
    (fun _ => ⟨0, 0⟩) (fun _ => "highway") (fun _ _ => ⟨0, 0⟩)
    (fun _ => 0) (fun _ => 0) (fun _ _ => ⟨0, 0, 0, 0, 0, 0, 0⟩)
    (fun _ _ => ⟨0, 0, 0, 0, 0, 0⟩)
  refine ⟨h.1 _ ?_, (h.2.1 _ ?_).1, (h.2.2 _ ?_).1⟩
  · exact List.mem_of_mem_head? rfl
  · exact List.mem_of_mem_head? rfl
  · exact List.mem_of_mem_head? rfl

/-- C7: the weather record at outer timestamp index `i` and station index
`j` (row `i * 10 + j`) has temperature equal to a `day_temp` value that
depends only on `i` — a single value shared by all 10 station records of
that timestamp — plus the station's own Normal(0, 1) draw, and `day_temp`
is 20 plus the Normal(0, 3) draw `3 * z` plus `sinTerm(hour) * 0.3 * 5`,
where `sinTerm h` stands for `np.sin((h - 6) * np.pi / 12)`. -/
theorem c7_shared_day_temp (start stop : ℕ) (loc : ℕ → LocNoise)
    (sinTerm : ℕ → ℚ) (dayZ : ℕ → ℚ) (wN : ℕ → ℕ → WeatherNoise)
    (i j : ℕ) (hi : i < (generate_timestamps start stop 30).length)
    (hj : j < 10) :
    ((generate_weather_data start stop loc sinTerm dayZ wN)[i * 10 + j]?).map
        (fun r => r.temperature) =
      some (day_temp sinTerm (dayZ i)
          (hour ((generate_timestamps start stop 30)[i])) +
        (wN i j).z_temp) ∧
    ∀ (z : ℚ) (h : ℕ),
      day_temp sinTerm z h = 20 + 3 * z + sinTerm h * 0.3 * 5 := by
  constructor
  · have hst : (station_locations loc).length = 10 := by
      simp [station_locations]
    have heq : generate_weather_data start stop loc sinTerm dayZ wN =
        (generate_timestamps start stop 30).enum.flatMap fun p =>
          (station_locations loc).enum.map
            ((fun ti si => weatherRecord si.2 ti.2
              (day_temp sinTerm (dayZ ti.1) (hour ti.2)) (wN ti.1 si.1)) p) :=
      rfl
    have h := enum_flatMap_getElem? (generate_timestamps start stop 30)
      (station_locations loc)
      (fun ti si => weatherRecord si.2 ti.2
        (day_temp sinTerm (dayZ ti.1) (hour ti.2)) (wN ti.1 si.1))
      i j hi (by rw [hst]; exact hj)
    rw [heq, show (10 : ℕ) = (station_locations loc).length from hst.symm, h]
    rfl
  · intro z h
    rfl

/-- Witness for C7: over a one-minute window with constant zero oracles,
row 0 of the weather dataset (timestamp index 0, station index 0) has
temperature 20, the shared day_temp for timestamp 0. -/
theorem c7_shared_day_temp_witness :
    ((generate_weather_data 0 1 (fun _ => ⟨0, 0⟩) (fun _ => 0) (fun _ => 0)
        (fun _ _ => ⟨0, 0, 0, 0, 0, 0, 0⟩))[0]?).map
        (fun r => r.temperature) = some 20 := by
  have h := (c7_shared_day_temp 0 1 (fun _ => ⟨0, 0⟩) (fun _ => 0)
    (fun _ => 0) (fun _ _ => ⟨0, 0, 0, 0, 0, 0, 0⟩) 0 0 (by decide)
    (by decide)).1
  simp only [Nat.zero_mul, Nat.add_zero, Nat.mul_zero] at h
  rw [h]
  norm_num [day_temp, hour_factor]

/-- C8 counterexample: the claim quantifies over every start and end, but
when start ≥ end the loop emits nothing, so the series does not include
start as its first element (here start = 1, end = 0, interval = 1). -/
theorem c8_counterexample_empty_window :
    generate_timestamps 1 0 1 = [] ∧
    (generate_timestamps 1 0 1).head? ≠ some 1 := by
  constructor
  · rfl
  · intro h
    simp [generate_timestamps, genTsFuel] at h

/-- C8 (amended): for every start, end and positive interval, the series
is strictly increasing, each successive element is the previous plus the
interval, every element is strictly below end, and — provided start < end,
so the series is nonempty — its first element is start; when end ≤ start
the series is empty. -/
theorem c8_series_shape (start stop interval : ℕ) (hpos : 0 < interval) :
    (start < stop →
      (generate_timestamps start stop interval).head? = some start) ∧
    List.Chain' (fun a b => b = a + interval)
      (generate_timestamps start stop interval) ∧
    (∀ x ∈ generate_timestamps start stop interval, x < stop) ∧
    List.Sorted (· < ·) (generate_timestamps start stop interval) ∧
    (stop ≤ start → generate_timestamps start stop interval = []) := by
  refine ⟨?_, genTsFuel_chain' _ _, fun x hx => genTsFuel_mem_lt _ _ x hx,
    ?_, fun h => generate_timestamps_nil h⟩
  · intro h
    rw [generate_timestamps_cons hpos h]
    rfl
  · have hc := @genTsFuel_chain' stop interval (stop - start) start
    have hlt : List.Chain' (fun a b : ℕ => a < b)
        (generate_timestamps start stop interval) := by
      refine List.Chain'.imp ?_ hc
      intro a b hab
      omega
    exact List.chain'_iff_pairwise.mp hlt

/-- Witness for C8: at start 0, end 3, interval 1 the series starts at 0
and is sorted. -/
theorem c8_series_shape_witness :
    (generate_timestamps 0 3 1).head? = some 0 ∧
    List.Sorted (· < ·) (generate_timestamps 0 3 1) := by
  have h := c8_series_shape 0 3 1 (by decide)
  exact ⟨h.1 (by decide), h.2.2.2.1⟩

/-- C9: every energy record carries voltage 240 + 5·z (the Normal(240, 5)
draw) and current = power_consumption / voltage · 1000; the division is
well-defined (current · voltage recovers power · 1000) whenever the
sampled voltage is nonzero; and no guard makes voltage = 0 unreachable —
for every timestamp and meter some draw yields a record with voltage 0. -/
theorem c9_unguarded_voltage_division (t : ℕ) (m : EnergyMeter)
    (n : EnergyNoise) :
    (energyRecord t m n).voltage = 240 + 5 * n.z_volt ∧
    (energyRecord t m n).current =
      (energyRecord t m n).power_consumption /
        (energyRecord t m n).voltage * 1000 ∧
    ((energyRecord t m n).voltage ≠ 0 →
      (energyRecord t m n).current * (energyRecord t m n).voltage =
        (energyRecord t m n).power_consumption * 1000) ∧
    ∀ (t2 : ℕ) (m2 : EnergyMeter), ∃ n2 : EnergyNoise,
      (energyRecord t2 m2 n2).voltage = 0 := by
  refine ⟨rfl, rfl, ?_, ?_⟩
  · intro hv
    show (energyRecord t m n).power_consumption /
        (energyRecord t m n).voltage * 1000 * (energyRecord t m n).voltage =
      (energyRecord t m n).power_consumption * 1000
    field_simp
  · intro t2 m2
    refine ⟨⟨0, -48, 0⟩, ?_⟩
    show (240 : ℚ) + 5 * (-48) = 0
    norm_num

/-- Witness for C9: a residential meter with all-zero draws has voltage
240 ≠ 0 and its current times voltage is its power times 1000. -/
theorem c9_unguarded_voltage_division_witness :
    (energyRecord 0 ⟨1, 0, 0, "residential"⟩ ⟨0, 0, 0⟩).current *
        (energyRecord 0 ⟨1, 0, 0, "residential"⟩ ⟨0, 0, 0⟩).voltage =
      (energyRecord 0 ⟨1, 0, 0, "residential"⟩ ⟨0, 0, 0⟩).power_consumption *
        1000 := by
  refine (c9_unguarded_voltage_division 0 ⟨1, 0, 0, "residential"⟩
    ⟨0, 0, 0⟩).2.2.1 ?_
  show (240 : ℚ) + 5 * 0 ≠ 0
  norm_num

/-- C10: the air-quality humidity field is the raw Uniform(30, 80) draw
with no clamping applied, and for every draw in the sampler's support
`[0, 1)` it lies in [30, 80] — in particular never outside [0, 100] — even
though, unlike the weather humidity, no floor or cap is applied. -/
theorem c10_aq_humidity_in_range (t : ℕ) (m : AQMonitor) (n : AQNoise)
    (h0 : 0 ≤ n.u_humidity) (h1 : n.u_humidity < 1) :
    (airQualityRecord t m n).humidity = uniformIn 30 80 n.u_humidity ∧
    30 ≤ (airQualityRecord t m n).humidity ∧
    (airQualityRecord t m n).humidity ≤ 80 ∧
    0 ≤ (airQualityRecord t m n).humidity ∧
    (airQualityRecord t m n).humidity ≤ 100 := by
  have hh : (airQualityRecord t m n).humidity =
      30 + (80 - 30) * n.u_humidity := rfl
  refine ⟨rfl, ?_, ?_, ?_, ?_⟩ <;> rw [hh] <;> nlinarith

/-- Witness for C10: the humidity of a record drawn at u = 1/2 is within
[30, 80]. -/
theorem c10_aq_humidity_in_range_witness :
    30 ≤ (airQualityRecord 0 ⟨1, 0, 0⟩ ⟨0, 0, 0, 0, 0, 1/2⟩).humidity ∧
    (airQualityRecord 0 ⟨1, 0, 0⟩ ⟨0, 0, 0, 0, 0, 1/2⟩).humidity ≤ 80 := by
  have h := c10_aq_humidity_in_range 0 ⟨1, 0, 0⟩ ⟨0, 0, 0, 0, 0, 1/2⟩
    (by norm_num) (by norm_num)
  exact ⟨h.2.1, h.2.2.1⟩

end SparkCity
